import Mathlib

/-!
Verification development for the LegadoTTSTool local-network discovery
engine.  The definitions below are a shallow embedding of the Python
sources `src/utils/network_info.py` and `src/core/network_scanner.py`:
pure functions are translated directly, OS and socket interactions are
modelled as explicit oracle parameters, and Python floats are modelled
as exact rationals.
-/

namespace LegadoTTS

/-! ## String helpers

Python string operations (`str.split('.')`, `str.endswith`,
`str.startswith`, `needle in haystack`, `str.lower`) are re-implemented
on `List Char` by structural recursion so that all definitions evaluate
inside the kernel. -/

/-- Python `s.split('.')`: split a character list on the dot character. -/
def splitDots : List Char → List (List Char)
  | [] => [[]]
  | c :: rest =>
    match splitDots rest with
    | [] => [[]]
    | g :: gs => if c = '.' then [] :: g :: gs else (c :: g) :: gs

/-- Python `sep.join`: join character-list groups with a dot. -/
def joinDots : List (List Char) → List Char
  | [] => []
  | [g] => g
  | g :: gs => g ++ '.' :: joinDots gs

/-- Python `s.endswith(suffix)`. -/
def endsWithStr (suffix s : String) : Bool :=
  suffix.toList.isSuffixOf s.toList

/-- Python `s.startswith(p)`. -/
def startsWithStr (p s : String) : Bool :=
  p.toList.isPrefixOf s.toList

/-- Python `needle in haystack` (substring containment). -/
def containsSub (needle : List Char) : List Char → Bool
  | [] => needle.isEmpty
  | c :: rest => needle.isPrefixOf (c :: rest) || containsSub needle rest

/-- Python `s.lower()` (ASCII case folding; CJK characters are unaffected
in both semantics). -/
def lowerStr (s : String) : String :=
  ⟨s.toList.map Char.toLower⟩

/-! ## IPv4 segment parsing (`ipaddress.IPv4Network`)

`SegmentClassifier._segment_in_ranges` builds
`IPv4Network(f"{segment}.0/24", strict=False)` and catches every parse
error, returning `False`.  Parsing succeeds exactly when the segment
string consists of three dot-separated decimal octets in `[0, 255]`
without leading zeros (the `ipaddress` module rejects leading zeros). -/

/-- Decimal value of a digit list. -/
def natOfDigits (cs : List Char) : Nat :=
  cs.foldl (fun acc c => acc * 10 + (c.toNat - 48)) 0

/-- Leading-zero test used by the octet parser. -/
def hasLeadingZero : List Char → Bool
  | c :: _ :: _ => c = '0'
  | _ => false

/-- Parse one octet the way `ipaddress._parse_octet` does: ASCII digits
only, no leading zeros, value at most 255. -/
def parseOctetL (cs : List Char) : Option Nat :=
  if cs.isEmpty then none
  else if !(cs.all Char.isDigit) then none
  else if hasLeadingZero cs then none
  else
    let n := natOfDigits cs
    if n ≤ 255 then some n else none

/-- Parse a segment string `"a.b.c"` into its three octets; `none`
models the `ValueError` branch of `_segment_in_ranges`. -/
def parseSegment (s : String) : Option (Nat × Nat × Nat) :=
  match splitDots s.toList with
  | [x, y, z] =>
    match parseOctetL x, parseOctetL y, parseOctetL z with
    | some a, some b, some c => some (a, b, c)
    | _, _, _ => none
  | _ => none

/-- An IPv4 network as its first and last address (32-bit integers);
`IPv4Network` with `strict=False` masks the host bits. -/
structure Net where
  first : Nat
  last : Nat
deriving DecidableEq, Repr

/-- Build the network `a.b.c.d/p` with host bits masked. -/
def mkNet (a b c d p : Nat) : Net :=
  let addr := ((a * 256 + b) * 256 + c) * 256 + d
  let block := 2 ^ (32 - p)
  let base := addr / block * block
  ⟨base, base + block - 1⟩

/-- `IPv4Network.subnet_of`: interval containment of the address
ranges. -/
def subnet_of (sub sup : Net) : Bool :=
  decide (sup.first ≤ sub.first) && decide (sub.last ≤ sup.last)

/-! ## `SEGMENT_CATEGORIES` (network_info.py lines 19-75) -/

def HIGH_PRIORITY_SEGMENTS : List Net :=
  [mkNet 192 168 0 0 16, mkNet 10 0 0 0 8, mkNet 172 16 0 0 12]

def MEDIUM_PRIORITY_SEGMENTS : List Net :=
  [mkNet 100 64 0 0 10, mkNet 169 254 0 0 16]

def LOW_PRIORITY_SEGMENTS : List Net :=
  [mkNet 172 17 0 0 16, mkNet 172 18 0 0 16, mkNet 172 19 0 0 16,
   mkNet 172 20 0 0 16, mkNet 172 21 0 0 16, mkNet 172 22 0 0 16,
   mkNet 172 23 0 0 16, mkNet 172 24 0 0 16, mkNet 172 25 0 0 16,
   mkNet 172 26 0 0 16, mkNet 172 27 0 0 16, mkNet 172 28 0 0 16,
   mkNet 172 29 0 0 16, mkNet 172 30 0 0 16, mkNet 172 31 0 0 16]

def SPECIAL_PRIORITY_SEGMENTS : List Net :=
  [mkNet 127 0 0 0 8, mkNet 224 0 0 0 4, mkNet 255 255 255 255 32,
   mkNet 0 0 0 0 8]

/-- `SegmentClassifier._segment_in_ranges`: parse `segment.0/24` and test
membership in any of the given ranges; a parse error yields `false`. -/
def segment_in_ranges (seg : String) (ranges : List Net) : Bool :=
  match parseSegment seg with
  | some (a, b, c) => ranges.any (fun r => subnet_of (mkNet a b c 0 24) r)
  | none => false

def is_high_priority_segment (seg : String) : Bool :=
  segment_in_ranges seg HIGH_PRIORITY_SEGMENTS

def is_medium_priority_segment (seg : String) : Bool :=
  segment_in_ranges seg MEDIUM_PRIORITY_SEGMENTS

def is_special_segment (seg : String) : Bool :=
  segment_in_ranges seg SPECIAL_PRIORITY_SEGMENTS

/-! ## `TUNNELING_PATTERNS` (network_info.py lines 78-91)

`_is_tunneling_segment` rewrites each pattern by replacing the trailing
literal text `\d+$` with `\d+` (dropping the end anchor) and then calls
`re.match` on `f"{segment}.1"`, i.e. an anchored-at-start prefix match.
Every alternation in the six patterns is between branches that cannot
both be prefixes of the same string, and the only `\d+` that is followed
by more pattern text is followed by a literal dot, so backtracking can
only succeed on the maximal digit run; the matchers below use these
facts to run deterministically. -/

/-- Consume a literal, or fail. -/
def stripLit (lit : String) (cs : List Char) : Option (List Char) :=
  if lit.toList.isPrefixOf cs then some (cs.drop lit.toList.length) else none

/-- Consume a single decimal digit (`\d+` with nothing after it only
needs one digit of the remaining input). -/
def oneDigit : List Char → Option (List Char)
  | c :: rest => if c.isDigit then some rest else none
  | [] => none

/-- Consume a maximal nonempty run of digits (`\d+` followed by a
literal dot). -/
def digitsRun : List Char → Option (List Char)
  | c :: rest => if c.isDigit then some (rest.dropWhile Char.isDigit) else none
  | [] => none

/-- Consume `(1\d\d|2\d\d)`. -/
def octet1or2dd : List Char → Option (List Char)
  | x :: y :: z :: rest =>
    if (x == '1' || x == '2') && y.isDigit && z.isDigit then some rest else none
  | _ => none

/-- Pattern `^192\.168\.(99|100)\.\d+`. -/
def tunnelNgrok1 (cs : List Char) : Bool :=
  match stripLit "192.168." cs with
  | some r =>
    match stripLit "99." r <|> stripLit "100." r with
    | some r2 => (oneDigit r2).isSome
    | none => false
  | none => false

/-- Pattern `^10\.0\.(99|100)\.\d+`. -/
def tunnelNgrok2 (cs : List Char) : Bool :=
  match stripLit "10.0." cs with
  | some r =>
    match stripLit "99." r <|> stripLit "100." r with
    | some r2 => (oneDigit r2).isSome
    | none => false
  | none => false

/-- Pattern `^192\.168\.(200|201)\.\d+`. -/
def tunnelFrp1 (cs : List Char) : Bool :=
  match stripLit "192.168." cs with
  | some r =>
    match stripLit "200." r <|> stripLit "201." r with
    | some r2 => (oneDigit r2).isSome
    | none => false
  | none => false

/-- Pattern `^172\.16\.(200|201)\.\d+`. -/
def tunnelFrp2 (cs : List Char) : Bool :=
  match stripLit "172.16." cs with
  | some r =>
    match stripLit "200." r <|> stripLit "201." r with
    | some r2 => (oneDigit r2).isSome
    | none => false
  | none => false

/-- Pattern `^192\.168\.(1\d\d|2\d\d)\.\d+`. -/
def tunnelCustom1 (cs : List Char) : Bool :=
  match stripLit "192.168." cs with
  | some r =>
    match octet1or2dd r with
    | some r2 =>
      match stripLit "." r2 with
      | some r3 => (oneDigit r3).isSome
      | none => false
    | none => false
  | none => false

/-- Pattern `^10\.(1\d\d|2\d\d)\.\d+\.\d+`. -/
def tunnelCustom2 (cs : List Char) : Bool :=
  match stripLit "10." cs with
  | some r =>
    match octet1or2dd r with
    | some r2 =>
      match stripLit "." r2 with
      | some r3 =>
        match digitsRun r3 with
        | some r4 =>
          match stripLit "." r4 with
          | some r5 => (oneDigit r5).isSome
          | none => false
        | none => false
      | none => false
    | none => false
  | none => false

/-- `SegmentClassifier._is_tunneling_segment`: try all six patterns (in
source dictionary order) against `segment + ".1"`. -/
def is_tunneling_segment (seg : String) : Bool :=
  let cs := (seg ++ ".1").toList
  tunnelNgrok1 cs || tunnelNgrok2 cs || tunnelFrp1 cs || tunnelFrp2 cs ||
    tunnelCustom1 cs || tunnelCustom2 cs

/-! ## `SegmentClassifier.classify_segment` (network_info.py 124-168) -/

/-- The classification record returned by `classify_segment`; category,
scan mode and reason are the source string constants. -/
structure Classification where
  category : String
  priority : Nat
  scan_mode : String
  reason : String
deriving DecidableEq, Repr

/-- `classify_segment`: decision chain in source order — special, high
priority, tunneling, medium priority, default low priority. -/
def classify_segment (segment : String) : Classification :=
  if is_special_segment segment then
    ⟨"SPECIAL_PRIORITY", 0, "IGNORE", "特殊网段"⟩
  else if is_high_priority_segment segment then
    ⟨"HIGH_PRIORITY", 3, "FULL", "真实局域网网段"⟩
  else if is_tunneling_segment segment then
    ⟨"HIGH_PRIORITY", 2, "FULL", "内网穿透网段"⟩
  else if is_medium_priority_segment segment then
    ⟨"MEDIUM_PRIORITY", 1, "FAST", "可能的内网穿透网段"⟩
  else
    ⟨"LOW_PRIORITY", 0, "SKIP", "虚拟网卡网段"⟩

/-! ## `SegmentScanEngine.get_scan_strategy` (network_info.py 214-292) -/

/-- One entry of `strategy['segments_to_scan']`.  `FULL` mode stores the
tuple `(1, 255)` and `FAST` mode the list `[(1, 10), (200, 210)]`; both
are modelled as lists of inclusive octet ranges. -/
structure ScanItem where
  segment : String
  scan_range : List (Nat × Nat)
  mode : String
  reason : String
deriving DecidableEq, Repr

/-- One entry of `strategy['segments_to_skip']`. -/
structure SkipItem where
  segment : String
  reason : String
deriving DecidableEq, Repr

/-- The strategy dictionary built by `get_scan_strategy`.  Python floats
(`scan_time`) are modelled as exact rationals. -/
structure Strategy where
  segments_to_scan : List ScanItem
  segments_to_skip : List SkipItem
  scan_order : List String
  total_ips : Nat
  time_saved : Nat
  scan_time : ℚ
deriving DecidableEq, Repr

/-- Stable insertion keeping earlier elements first among equal
priorities. -/
def insertByPriority (x : String × Classification) :
    List (String × Classification) → List (String × Classification)
  | [] => [x]
  | y :: ys =>
    if x.2.priority ≤ y.2.priority then y :: insertByPriority x ys
    else x :: y :: ys

/-- Python `list.sort(key=priority, reverse=True)`: a stable descending
sort by priority.  Stable sorts by the same key agree, so insertion
sort is a faithful model of the source sort. -/
def sortByPriorityDesc (l : List (String × Classification)) :
    List (String × Classification) :=
  l.foldl (fun acc x => insertByPriority x acc) []

/-- The body of the strategy loop for one classified segment. -/
def strategyStep (acc : Strategy) (item : String × Classification) : Strategy :=
  if item.2.scan_mode = "FULL" then
    { acc with
      segments_to_scan :=
        acc.segments_to_scan ++ [⟨item.1, [(1, 255)], "FULL", item.2.reason⟩],
      scan_order := acc.scan_order ++ [item.1],
      total_ips := acc.total_ips + 254 }
  else if item.2.scan_mode = "FAST" then
    { acc with
      segments_to_scan :=
        acc.segments_to_scan ++ [⟨item.1, [(1, 10), (200, 210)], "FAST", item.2.reason⟩],
      scan_order := acc.scan_order ++ [item.1],
      total_ips := acc.total_ips + 21 }
  else if item.2.scan_mode = "SKIP" then
    { acc with
      segments_to_skip := acc.segments_to_skip ++ [⟨item.1, item.2.reason⟩],
      time_saved := acc.time_saved + 254 }
  else acc

/-- `SegmentScanEngine.get_scan_strategy`: classify, sort by priority
descending, then accumulate scan / skip entries; finally the scan time
estimate is `total_ips * 0.1` seconds. -/
def get_scan_strategy (segments : List String) : Strategy :=
  let classified := segments.map (fun s => (s, classify_segment s))
  let sorted := sortByPriorityDesc classified
  let s := sorted.foldl strategyStep ⟨[], [], [], 0, 0, 0⟩
  { s with scan_time := (s.total_ips : ℚ) * (1 / 10) }

/-! ## Data records of the scanner (network_scanner.py) -/

/-- A server or live-host record: the dictionaries
`{'address', 'web_port', 'synth_port'}` used throughout the scanner,
with `None`-able ports as options. -/
structure Server where
  address : String
  web_port : Option Nat
  synth_port : Option Nat
deriving DecidableEq, Repr

/-- A provider entry as consumed by `_get_known_servers`
(`enabled` defaulting to true is resolved by the caller; absent
`web_port`/`synth_port` keys are `none`). -/
structure Provider where
  enabled : Bool
  server_address : Option String
  web_port : Option Nat
  synth_port : Option Nat
deriving DecidableEq, Repr

/-- A network adapter record as returned by
`NetworkInfo.get_network_adapters`. -/
structure AdapterRec where
  name : String
  type : String
  ipv4 : List String
deriving DecidableEq, Repr

/-- `NetworkScanner._get_known_servers`: enabled providers with a
truthy (nonempty) address, ports defaulting to 7860/9880, and the local
`127.0.0.1` entry always appended last. -/
def get_known_servers (providers : List Provider) : List Server :=
  (providers.filterMap (fun p =>
    match p.server_address with
    | some addr =>
      if p.enabled && !(addr == "") then
        some ⟨addr, some (p.web_port.getD 7860), some (p.synth_port.getD 9880)⟩
      else none
    | none => none)) ++ [⟨"127.0.0.1", some 7860, some 9880⟩]

/-! ## `NetworkScanner._is_port_open` (network_scanner.py 495-507)

The socket interaction is modelled by its outcome: either
`socket.connect_ex` ran to completion and returned an error code, or
some socket call raised an exception (which the source catches,
returning `False`). -/

/-- Outcome of the TCP connect attempt. -/
inductive ConnectOutcome where
  | completed (code : Int)
  | raised (msg : String)
deriving DecidableEq, Repr

/-- `_is_port_open`: true exactly when `connect_ex` returned 0; every
exception is absorbed into `false`. -/
def is_port_open (outcome : ConnectOutcome) : Bool :=
  match outcome with
  | .completed code => code == 0
  | .raised _ => false

/-! ## `NetworkScanner._check_host_ports` and `_scan_ports`

The port-probe oracle `probe : String → Nat → Bool` stands for
`_is_port_open` applied to the live network.  `_check_host_ports` is
additionally instrumented to report the `(address, port)` probes it
issues, so that "zero scan-phase probes" claims are statable.  The
thread pool of `_scan_ports` is modelled sequentially (the source
collects results in completion order, which is irrelevant to the
claims proved here). -/

/-- `_check_host_ports`: skip `.0` / `.255` addresses before probing,
otherwise probe the web port 7860 and synth port 9880 and keep the host
iff at least one is open. -/
def check_host_ports (probe : String → Nat → Bool) (ip : String) :
    Option Server × List (String × Nat) :=
  if endsWithStr ".0" ip || endsWithStr ".255" ip then (none, [])
  else
    let web := probe ip 7860
    let synth := probe ip 9880
    let result : Server :=
      ⟨ip, if web then some 7860 else none, if synth then some 9880 else none⟩
    (if web || synth then some result else none, [(ip, 7860), (ip, 9880)])

/-- One loop iteration of `_scan_ports`: append the live-host record (if
any) and the probes issued for one candidate address. -/
def scan_ports_step (probe : String → Nat → Bool)
    (acc : List Server × List (String × Nat)) (ip : String) :
    List Server × List (String × Nat) :=
  let r := check_host_ports probe ip
  (match r.1 with
   | some h => acc.1 ++ [h]
   | none => acc.1,
   acc.2 ++ r.2)

/-- `_scan_ports`: run `_check_host_ports` over the candidate list,
collecting live hosts and the probes issued. -/
def scan_ports (probe : String → Nat → Bool) (ip_list : List String) :
    List Server × List (String × Nat) :=
  ip_list.foldl (scan_ports_step probe) ([], [])

/-! ## `_verify_servers` (network_scanner.py 509-590)

The two application-level checks (`_verify_gradio_api` returning a
nonempty list, `_verify_synth_api` returning HTTP 200) are network
interactions modelled as boolean oracles. -/

/-- `_verify_index_tts_server`: web-port check first, synth-port check
as fallback; a missing (or failing) port yields `false`. -/
def verify_index_tts_server (gradioOk synthOk : String → Nat → Bool)
    (h : Server) : Bool :=
  match h.web_port with
  | some wp =>
    if gradioOk h.address wp then true
    else
      match h.synth_port with
      | some sp => synthOk h.address sp
      | none => false
  | none =>
    match h.synth_port with
    | some sp => synthOk h.address sp
    | none => false

/-- `_verify_servers`: keep the hosts that verify. -/
def verify_servers (gradioOk synthOk : String → Nat → Bool)
    (hosts : List Server) : List Server :=
  hosts.filter (verify_index_tts_server gradioOk synthOk)

/-! ## `NetworkInfo` adapter inspection (network_info.py 295-529)

The OS command output parsing (`ipconfig` / `ifconfig` text) is
abstracted to its result: a list of raw adapters, each with the name
found on its header line and the candidate IPv4 strings extracted by
the address regex.  The per-address filters, the adapter-type
detection and the valid-adapter filters are translated from the
source. -/

/-- A parsed (name, candidate addresses) pair before filtering. -/
structure RawAdapter where
  name : String
  ipv4_candidates : List String
deriving DecidableEq, Repr

/-- WiFi keywords of `_detect_adapter_type`. -/
def wifi_keywords : List String :=
  ["wi-fi", "wireless", "wlan", "wifi", "802.11", "airport"]

/-- Ethernet keywords of `_detect_adapter_type`. -/
def ethernet_keywords : List String :=
  ["ethernet", "local area connection", "lan", "以太网", "本地连接"]

/-- `_detect_adapter_type`: lowercase the name, check WiFi keywords
first, then Ethernet keywords, else the catch-all kind. -/
def detect_adapter_type (adapter_name : String) : String :=
  let lower := (lowerStr adapter_name).toList
  if wifi_keywords.any (fun k => containsSub k.toList lower) then "WiFi"
  else if ethernet_keywords.any (fun k => containsSub k.toList lower) then "以太网"
  else "其他"

/-- The Windows per-address filter (line 398): drop loopback `127.*`,
link-local `169.254.*` and the literal `0.0.0.0`. -/
def windows_ip_ok (ip : String) : Bool :=
  !(startsWithStr "127." ip || startsWithStr "169.254." ip || ip == "0.0.0.0")

/-- `_get_windows_adapters` after parsing: record the qualifying
addresses of each adapter and keep the adapters with at least one. -/
def get_windows_adapters (raw : List RawAdapter) : List AdapterRec :=
  (raw.map (fun r =>
    (⟨r.name, detect_adapter_type r.name,
      r.ipv4_candidates.filter windows_ip_ok⟩ : AdapterRec))).filter
    (fun a => !a.ipv4.isEmpty)

/-- The Linux per-address filter (line 478): keep only `192.168.*`. -/
def linux_ip_ok (ip : String) : Bool :=
  startsWithStr "192.168." ip

/-- `_get_linux_adapters` after parsing: record only `192.168.*`
addresses and keep adapters whose detected type is Ethernet or WiFi and
whose address list is nonempty (line 489). -/
def get_linux_adapters (raw : List RawAdapter) : List AdapterRec :=
  (raw.map (fun r =>
    (⟨r.name, detect_adapter_type r.name,
      r.ipv4_candidates.filter linux_ip_ok⟩ : AdapterRec))).filter
    (fun a => (a.type == "以太网" || a.type == "WiFi") && !a.ipv4.isEmpty)

/-! ## Segment derivation and scan-IP generation -/

/-- Python `'.'.join(ip.split('.')[:3])`. -/
def segmentOf (ip : String) : String :=
  ⟨joinDots ((splitDots ip.toList).take 3)⟩

/-- First-seen-order duplicate removal, modelling the `set()` used by
`get_network_segments` (the Python set iterates in an unspecified
order; the claims proved below do not depend on segment order). -/
def dedupStrings (l : List String) : List String :=
  l.foldl (fun acc s => if s ∈ acc then acc else acc ++ [s]) []

/-- `NetworkInfo.get_network_segments`: the set of three-octet prefixes
of all adapter addresses. -/
def get_network_segments (adapters : List AdapterRec) : List String :=
  dedupStrings ((adapters.flatMap (·.ipv4)).map segmentOf)

/-- The empty strategy returned when no segments are found. -/
def emptyStrategy : Strategy := ⟨[], [], [], 0, 0, 0⟩

/-- `NetworkInfo.get_filtered_network_segments`. -/
def get_filtered_network_segments (adapters : List AdapterRec) : Strategy :=
  let all_segments := get_network_segments adapters
  if all_segments.isEmpty then emptyStrategy
  else get_scan_strategy all_segments

/-- `NetworkInfo.get_primary_network_segment`: prefer a `FULL` segment
whose reason mentions the LAN text, then one mentioning the tunneling
text, else the first scannable segment. -/
def get_primary_network_segment (adapters : List AdapterRec) : Option String :=
  let toScan := (get_filtered_network_segments adapters).segments_to_scan
  match toScan with
  | [] => none
  | firstItem :: _ =>
    let highs := toScan.filter
      (fun s => s.mode == "FULL" && containsSub "真实局域网网段".toList s.reason.toList)
    match highs with
    | h :: _ => some h.segment
    | [] =>
      let tuns := toScan.filter
        (fun s => s.mode == "FULL" && containsSub "内网穿透网段".toList s.reason.toList)
      match tuns with
      | t :: _ => some t.segment
      | [] => some firstItem.segment

/-- One loop iteration of `_scan_segment_with_strategy`: add
`segment.i` unless already present. -/
def scan_ip_step (segment : String) (acc : List String) (i : Nat) : List String :=
  if segment ++ "." ++ toString i ∈ acc then acc
  else acc ++ [segment ++ "." ++ toString i]

/-- `NetworkScanner._scan_segment_with_strategy`: local addresses whose
string starts with the segment come first, then every `segment.i` for
`i` in 1..255 that is not already present. -/
def scan_segment_with_strategy (adapters : List AdapterRec) (segment : String) :
    List String :=
  (List.range' 1 255).foldl (scan_ip_step segment)
    ((adapters.flatMap (·.ipv4)).filter (fun ip => startsWithStr segment ip))

/-- `NetworkScanner._get_default_ips`. -/
def get_default_ips : List String := ["127.0.0.1"]

/-- `NetworkScanner._get_scan_ips`: full scan of the primary segment,
plus the critical addresses 1-10 and 200-210 of up to two other
segments; with no primary segment, the default list. -/
def get_scan_ips (adapters : List AdapterRec) : List String :=
  match get_primary_network_segment adapters with
  | some primary =>
    let ip_list := scan_segment_with_strategy adapters primary
    let all_segments := get_network_segments adapters
    let other_segments := all_segments.filter (fun s => !(s == primary))
    let extra := (other_segments.take 2).flatMap (fun seg =>
      ((List.range' 1 10).map (fun i => seg ++ "." ++ toString i)) ++
      ((List.range' 200 11).map (fun i => seg ++ "." ++ toString i)))
    ip_list ++ extra
  | none => get_default_ips

/-! ## De-duplication and the discovery operation
(network_scanner.py 87-139) -/

/-- One iteration of the dedup loop: skip the server when its address
is already in the seen set. -/
def dedup_step (acc : List Server × List String) (s : Server) :
    List Server × List String :=
  if s.address ∈ acc.2 then acc else (acc.1 ++ [s], acc.2 ++ [s.address])

/-- The dedup loop of `scan_index_tts_servers` (lines 125-132): walk the
list keeping the first server seen for each address. -/
def dedup_servers (servers : List Server) : List Server :=
  (servers.foldl dedup_step ([], [])).1

/-- Recursive reformulation of the dedup loop, threading the seen set
explicitly; used to reason about `dedup_servers` by structural
induction. -/
def dedupF : List Server → List String → List Server
  | [], _ => []
  | s :: rest, seen =>
    if s.address ∈ seen then dedupF rest seen
    else s :: dedupF rest (seen ++ [s.address])

/-- The environment of one discovery call: the provider configuration
and the three network oracles (port probe, Gradio verification, synth
verification), plus the adapter table the OS reports. -/
structure ScanEnv where
  providers : List Provider
  adapters : List AdapterRec
  probe : String → Nat → Bool
  gradioOk : String → Nat → Bool
  synthOk : String → Nat → Bool

/-- Step 1 of `scan_index_tts_servers`: the verified known servers
(the source guards the verification behind `if known_servers:`). -/
def seed_results (env : ScanEnv) : List Server :=
  let known := get_known_servers env.providers
  if known.isEmpty then [] else verify_servers env.gradioOk env.synthOk known

/-- `scan_index_tts_servers`: seed verification, optional fast-mode
early exit, network scan, then de-duplication.  The second component
collects the scan-phase port probes.  Note the early return at source
line 115 (`if not ip_list: return servers`) bypasses de-duplication. -/
def scan_index_tts_servers (env : ScanEnv) (fast_mode : Bool) :
    List Server × List (String × Nat) :=
  if fast_mode && decide (2 ≤ (seed_results env).length) then
    (dedup_servers (seed_results env), [])
  else if (get_scan_ips env.adapters).isEmpty then (seed_results env, [])
  else
    (dedup_servers (seed_results env ++
        verify_servers env.gradioOk env.synthOk
          (scan_ports env.probe (get_scan_ips env.adapters)).1),
     (scan_ports env.probe (get_scan_ips env.adapters)).2)

/-- The list of verified servers in discovery order (seed results
before scan results), before de-duplication. -/
def discovered_servers (env : ScanEnv) (fast_mode : Bool) : List Server :=
  if fast_mode && decide (2 ≤ (seed_results env).length) then seed_results env
  else
    seed_results env ++
      verify_servers env.gradioOk env.synthOk
        (scan_ports env.probe (get_scan_ips env.adapters)).1

/-! ## `NetworkScanner.estimate_scan_time` (network_scanner.py 662-682) -/

/-- The result dictionary of `estimate_scan_time` (the redundant
`timeout` echo field is omitted). -/
structure EstimateResult where
  estimated_seconds : ℚ
  estimated_minutes : ℚ
  ip_count : Nat
  threads : Nat
deriving DecidableEq, Repr

/-- `estimate_scan_time` with an explicit address count: per-address
time is `timeout * 0.8`, divided by the concurrency factor
`min(max_threads, ip_count)`.  Python floats are modelled as exact
rationals; for `ip_count = 0` the source raises `ZeroDivisionError`
while rational division by zero yields 0. -/
def estimate_scan_time (timeout : ℚ) (max_threads ip_count : Nat) :
    EstimateResult :=
  let time_per_ip := timeout * (4 / 5)
  let total_time := (ip_count : ℚ) * time_per_ip
  let concurrent_factor : Nat := min max_threads ip_count
  let estimated_time := total_time / (concurrent_factor : ℚ)
  ⟨estimated_time, estimated_time / 60, ip_count, max_threads⟩

/-! ## Definitions written from the specification text

These follow the words of the spec (not the source) and exist only to
be compared against the source-derived definitions above. -/

/-- The estimate formula exactly as the spec states it:
`totalAddresses * perProbeTimeout / min(maxConcurrentProbes,
totalAddresses)`. -/
def spec_scan_time_estimate (perProbeTimeout : ℚ)
    (maxConcurrentProbes totalAddresses : Nat) : ℚ :=
  (totalAddresses : ℚ) * perProbeTimeout /
    ((min maxConcurrentProbes totalAddresses : Nat) : ℚ)

/-- The address predicate as the spec states it for the adapter
inspector: record addresses that are not loopback (`127.0.0.0/8`) and
not link-local (`169.254.0.0/16`). -/
def spec_ip_qualifies (ip : String) : Bool :=
  !(startsWithStr "127." ip || startsWithStr "169.254." ip)

/-! ## Concrete inputs used by witness theorems -/

/-- A configured provider whose address is the loopback address. -/
def test_provider127 : Provider := ⟨true, some "127.0.0.1", none, none⟩

/-- A discovery environment with the loopback provider, no adapters, a
probe that finds nothing, and a Gradio verifier accepting only
`127.0.0.1`. -/
def test_env : ScanEnv :=
  ⟨[test_provider127], [], fun _ _ => false,
   fun a _ => a == "127.0.0.1", fun _ _ => false⟩

/-- The range shape of every emitted scan item: `FULL` items carry
`(1, 255)`, `FAST` items carry `(1, 10), (200, 210)`, and no range
starts below octet 1. -/
def GoodScanItem (it : ScanItem) : Prop :=
  (it.mode = "FULL" → it.scan_range = [(1, 255)]) ∧
  (it.mode = "FAST" → it.scan_range = [(1, 10), (200, 210)]) ∧
  (∀ pr ∈ it.scan_range, 1 ≤ pr.1)

/-! ## Theorems -/

/-- Claim C6 (confirmed): the port probe returns `true` exactly when
the TCP connect attempt completed with `connect_ex` code 0; every other
outcome — a nonzero error code (refused, timeout, unreachable,
host-down) or an exception raised by a socket call — yields `false`,
and the function is total, so no exception ever reaches the caller. -/
theorem claim_C6 (outcome : ConnectOutcome) :
    is_port_open outcome = true ↔ outcome = ConnectOutcome.completed 0 := by
  cases outcome with
  | completed code =>
    simp [is_port_open]
  | raised msg =>
    simp [is_port_open]

/-- Claim C9 counterexample: for 254 addresses, a 1-second probe
timeout and a 150-thread cap, the code's estimate differs from the
spec formula `n * t / min(c, n)` — the code first multiplies the
timeout by 0.8. -/
theorem claim_C9_counterexample :
    (estimate_scan_time 1 150 254).estimated_seconds ≠
      spec_scan_time_estimate 1 150 254 := by
  simp only [estimate_scan_time, spec_scan_time_estimate]
  norm_num

/-- Claim C9 (corrected): the scan-time estimate equals
`n * (0.8 * t) / min(c, n)` — the source applies a 0.8
parallel-optimization factor to the per-probe timeout before dividing
by the concurrency factor. -/
theorem claim_C9_amended (timeout : ℚ) (max_threads ip_count : Nat) :
    (estimate_scan_time timeout max_threads ip_count).estimated_seconds =
      spec_scan_time_estimate (timeout * (4 / 5)) max_threads ip_count := by
  simp only [estimate_scan_time, spec_scan_time_estimate]

/-- Claim C1 counterexample: the container-bridge segment `172.17.0`
lies inside `172.17.0.0/16` but `classify_segment` returns scan mode
`FULL`, not `SKIP` — the high-priority check for `172.16.0.0/12` runs
before the low-priority default. -/
theorem claim_C1_counterexample :
    (classify_segment "172.17.0").scan_mode = "FULL" ∧
      ¬((classify_segment "172.17.0").scan_mode = "SKIP") := by
  decide

/-- Claim C3 counterexample: `192.168.99` matches the ngrok tunneling
pattern, yet `classify_segment` records the LAN-segment reason, not the
tunneling-segment reason, because the LAN-range check runs first. -/
theorem claim_C3_counterexample :
    is_tunneling_segment "192.168.99" = true ∧
      classify_segment "192.168.99" =
        ⟨"HIGH_PRIORITY", 3, "FULL", "真实局域网网段"⟩ ∧
      (classify_segment "192.168.99").reason ≠ "内网穿透网段" := by
  decide

/-- Claim C2 counterexample: for the High segment `192.168.1` the
planner emits the range `(1, 255)`, not `(1, 254)`; the emitted range
therefore includes octet 255. -/
theorem claim_C2_counterexample :
    (get_scan_strategy ["192.168.1"]).segments_to_scan =
        [⟨"192.168.1", [(1, 255)], "FULL", "真实局域网网段"⟩] ∧
      [((1 : Nat), (255 : Nat))] ≠ [(1, 254)] := by
  constructor
  · decide
  · decide

/-- Claim C8 counterexample: the address `10.0.0.5` is neither loopback
nor link-local, so the spec says a WiFi adapter holding it is recorded
with that address; the Linux path of the source records only
`192.168.*` addresses and hence drops the adapter entirely. -/
theorem claim_C8_counterexample :
    spec_ip_qualifies "10.0.0.5" = true ∧
      get_linux_adapters [⟨"wlan0", ["10.0.0.5"]⟩] = [] := by
  decide

/-! ### Arithmetic facts about segment classification -/

lemma parseOctetL_le {cs : List Char} {n : Nat}
    (h : parseOctetL cs = some n) : n ≤ 255 := by
  unfold parseOctetL at h
  split at h
  · exact absurd h (by simp)
  · split at h
    · exact absurd h (by simp)
    · split at h
      · exact absurd h (by simp)
      · by_cases hn : natOfDigits cs ≤ 255
        · simp only [hn, if_true] at h
          simp only [Option.some.injEq] at h
          omega
        · simp [hn] at h

lemma parseSegment_bounds {s : String} {a b c : Nat}
    (h : parseSegment s = some (a, b, c)) :
    a ≤ 255 ∧ b ≤ 255 ∧ c ≤ 255 := by
  unfold parseSegment at h
  split at h
  · rename_i x y z heq
    cases hx : parseOctetL x with
    | none => rw [hx] at h; simp at h
    | some na =>
      cases hy : parseOctetL y with
      | none => rw [hx, hy] at h; simp at h
      | some nb =>
        cases hz : parseOctetL z with
        | none => rw [hx, hy, hz] at h; simp at h
        | some nc =>
          rw [hx, hy, hz] at h
          simp only [Option.some.injEq, Prod.mk.injEq] at h
          obtain ⟨h1, h2, h3⟩ := h
          subst h1; subst h2; subst h3
          exact ⟨parseOctetL_le hx, parseOctetL_le hy, parseOctetL_le hz⟩
  · exact absurd h (by simp)

lemma mkNet_seg_eq (a b c : Nat) :
    mkNet a b c 0 24 =
      ⟨((a * 256 + b) * 256 + c) * 256,
       ((a * 256 + b) * 256 + c) * 256 + 255⟩ := by
  simp only [mkNet, Net.mk.injEq]
  norm_num

lemma net192_eq : mkNet 192 168 0 0 16 = ⟨3232235520, 3232301055⟩ := by decide

lemma net10_eq : mkNet 10 0 0 0 8 = ⟨167772160, 184549375⟩ := by decide

lemma net172_eq : mkNet 172 16 0 0 12 = ⟨2886729728, 2887778303⟩ := by decide

lemma net127_eq : mkNet 127 0 0 0 8 = ⟨2130706432, 2147483647⟩ := by decide

lemma net224_eq : mkNet 224 0 0 0 4 = ⟨3758096384, 4026531839⟩ := by decide

lemma net255_eq : mkNet 255 255 255 255 32 = ⟨4294967295, 4294967295⟩ := by
  decide

lemma net0_eq : mkNet 0 0 0 0 8 = ⟨0, 16777215⟩ := by decide

/-- Segments inside the three private LAN ranges pass the high-priority
range check. -/
lemma is_high_of_cond {seg : String} {a b c : Nat}
    (hp : parseSegment seg = some (a, b, c))
    (h : (a = 192 ∧ b = 168) ∨ a = 10 ∨ (a = 172 ∧ 16 ≤ b ∧ b ≤ 31)) :
    is_high_priority_segment seg = true := by
  obtain ⟨ha, hb, hc⟩ := parseSegment_bounds hp
  unfold is_high_priority_segment segment_in_ranges
  rw [hp]
  simp only [HIGH_PRIORITY_SEGMENTS, List.any_cons, List.any_nil,
    Bool.or_eq_true, mkNet_seg_eq, net192_eq, net10_eq, net172_eq,
    subnet_of, Bool.and_eq_true, decide_eq_true_eq, Bool.or_false]
  omega

/-- Segments inside the three private LAN ranges fail the special-range
check. -/
lemma not_special_of_cond {seg : String} {a b c : Nat}
    (hp : parseSegment seg = some (a, b, c))
    (h : (a = 192 ∧ b = 168) ∨ a = 10 ∨ (a = 172 ∧ 16 ≤ b ∧ b ≤ 31)) :
    is_special_segment seg = false := by
  obtain ⟨ha, hb, hc⟩ := parseSegment_bounds hp
  unfold is_special_segment segment_in_ranges
  rw [hp]
  simp only [SPECIAL_PRIORITY_SEGMENTS, List.any_cons, List.any_nil,
    mkNet_seg_eq, subnet_of,
    Bool.or_eq_false_iff, Bool.and_eq_false_iff, decide_eq_false_iff_not]
  norm_num [mkNet]
  omega

/-- Claim C1 (corrected): every segment inside `192.168.0.0/16`,
`10.0.0.0/8` or `172.16.0.0/12` — including the container-bridge ranges
`172.17.0.0/16` through `172.30.0.0/16` — is classified with scan mode
`Full`; the low-priority `Skip` entries for the container ranges are
unreachable because the high-priority check precedes them. -/
theorem claim_C1_amended {seg : String} {a b c : Nat}
    (hp : parseSegment seg = some (a, b, c))
    (h : (a = 192 ∧ b = 168) ∨ a = 10 ∨ (a = 172 ∧ 16 ≤ b ∧ b ≤ 31)) :
    (classify_segment seg).scan_mode = "FULL" := by
  unfold classify_segment
  rw [not_special_of_cond hp h, is_high_of_cond hp h]
  simp

/-- Witness for C1 (corrected) at the container-bridge segment
`172.17.0`. -/
theorem claim_C1_amended_witness :
    parseSegment "172.17.0" = some (172, 17, 0) ∧
      (classify_segment "172.17.0").scan_mode = "FULL" :=
  ⟨by decide, @claim_C1_amended "172.17.0" 172 17 0 (by decide) (by decide)⟩

/-- Claim C3 (corrected): a valid segment inside the private LAN ranges
that matches a tunneling pattern is classified `Full`, but with the
LAN-segment reason, not the tunneling-segment reason — the LAN range
check precedes the tunneling check, and every tunneling pattern lies
inside the LAN ranges. -/
theorem claim_C3_amended {seg : String} {a b c : Nat}
    (hp : parseSegment seg = some (a, b, c))
    (_ht : is_tunneling_segment seg = true)
    (h : (a = 192 ∧ b = 168) ∨ a = 10 ∨ (a = 172 ∧ 16 ≤ b ∧ b ≤ 31)) :
    classify_segment seg = ⟨"HIGH_PRIORITY", 3, "FULL", "真实局域网网段"⟩ := by
  unfold classify_segment
  rw [not_special_of_cond hp h, is_high_of_cond hp h]
  simp

/-- Witness for C3 (corrected) at the ngrok-pattern segment
`192.168.99`. -/
theorem claim_C3_amended_witness :
    parseSegment "192.168.99" = some (192, 168, 99) ∧
      is_tunneling_segment "192.168.99" = true ∧
      classify_segment "192.168.99" =
        ⟨"HIGH_PRIORITY", 3, "FULL", "真实局域网网段"⟩ :=
  ⟨by decide, by decide,
    @claim_C3_amended "192.168.99" 192 168 99 (by decide) (by decide) (by decide)⟩

/-! ### The planner invariant (claim C2) -/

lemma strategyStep_good (acc : Strategy) (x : String × Classification)
    (hacc : ∀ it ∈ acc.segments_to_scan, GoodScanItem it) :
    ∀ it ∈ (strategyStep acc x).segments_to_scan, GoodScanItem it := by
  intro it hit
  unfold strategyStep at hit
  split at hit
  · simp at hit
    rcases hit with hold | hnew
    · exact hacc it hold
    · subst hnew
      refine ⟨fun _ => rfl, fun hmode => ?_, ?_⟩
      · simp at hmode
      · intro pr hpr
        simp only [List.mem_singleton] at hpr
        subst hpr
        exact le_refl 1
  · split at hit
    · simp at hit
      rcases hit with hold | hnew
      · exact hacc it hold
      · subst hnew
        refine ⟨fun hmode => ?_, fun _ => rfl, ?_⟩
        · simp at hmode
        · intro pr hpr
          simp only [List.mem_cons, List.not_mem_nil, or_false] at hpr
          rcases hpr with h1 | h1 <;> subst h1 <;> norm_num
    · split at hit
      · simp at hit
        exact hacc it hit
      · exact hacc it hit

lemma strategy_foldl_good (l : List (String × Classification)) (acc : Strategy)
    (hacc : ∀ it ∈ acc.segments_to_scan, GoodScanItem it) :
    ∀ it ∈ (l.foldl strategyStep acc).segments_to_scan, GoodScanItem it := by
  induction l generalizing acc with
  | nil => exact hacc
  | cons x rest ih =>
    intro it hit
    exact ih (strategyStep acc x) (strategyStep_good acc x hacc) it hit

/-- Claim C2 (corrected): every emitted scan target for a `Full`
segment carries the range `(1, 255)` — not `(1, 254)` — and `Fast`
segments carry `(1, 10), (200, 210)`; no emitted range starts at
octet 0, and addresses ending in `.0` or `.255` are discarded by the
host scanner before any probe is issued, so octets 0 and 255 are never
probed even though 255 appears in the emitted range. -/
theorem claim_C2_amended :
    (∀ (segments : List String) (it : ScanItem),
        it ∈ (get_scan_strategy segments).segments_to_scan → GoodScanItem it) ∧
      (∀ (probe : String → Nat → Bool) (ip : String),
        (endsWithStr ".0" ip || endsWithStr ".255" ip) = true →
          check_host_ports probe ip = (none, [])) := by
  constructor
  · intro segments it hit
    unfold get_scan_strategy at hit
    simp only at hit
    exact strategy_foldl_good _ ⟨[], [], [], 0, 0, 0⟩ (by intro it h; simp at h) it hit
  · intro probe ip h
    unfold check_host_ports
    rw [h]
    simp

/-- Witness for C2 (corrected): the single High segment `192.168.1`
yields the range `(1, 255)`, and a `.255` address is skipped without
probes. -/
theorem claim_C2_amended_witness :
    (⟨"192.168.1", [(1, 255)], "FULL", "真实局域网网段"⟩ : ScanItem).scan_range =
        [(1, 255)] ∧
      check_host_ports (fun _ _ => true) "192.168.1.255" = (none, []) :=
  ⟨(claim_C2_amended.1 ["192.168.1"]
      ⟨"192.168.1", [(1, 255)], "FULL", "真实局域网网段"⟩ (by decide)).1 rfl,
   claim_C2_amended.2 (fun _ _ => true) "192.168.1.255" (by decide)⟩

/-! ### Host-scanner probe discipline (claim C7) -/

lemma check_host_ports_probes (probe : String → Nat → Bool) (ip : String)
    (pr : String × Nat) (h : pr ∈ (check_host_ports probe ip).2) :
    endsWithStr ".0" pr.1 = false ∧ endsWithStr ".255" pr.1 = false := by
  unfold check_host_ports at h
  split at h
  · simp at h
  · rename_i hcond
    simp only [Bool.or_eq_true, not_or, Bool.not_eq_true] at hcond
    simp only [List.mem_cons, List.not_mem_nil, or_false] at h
    rcases h with h1 | h1 <;> subst h1 <;> exact ⟨hcond.1, hcond.2⟩

lemma scan_ports_foldl_probes (probe : String → Nat → Bool)
    (l : List String) (acc : List Server × List (String × Nat))
    (hacc : ∀ pr ∈ acc.2,
      endsWithStr ".0" pr.1 = false ∧ endsWithStr ".255" pr.1 = false) :
    ∀ pr ∈ (l.foldl (scan_ports_step probe) acc).2,
      endsWithStr ".0" pr.1 = false ∧ endsWithStr ".255" pr.1 = false := by
  induction l generalizing acc with
  | nil => exact hacc
  | cons ip rest ih =>
    intro pr hpr
    refine ih (scan_ports_step probe acc ip) ?_ pr hpr
    intro q hq
    unfold scan_ports_step at hq
    simp only [List.mem_append] at hq
    rcases hq with hq | hq
    · exact hacc q hq
    · exact check_host_ports_probes probe ip q hq

/-- Claim C7 (confirmed): candidate addresses ending in `.0` (network
address) or `.255` (broadcast address) are skipped by
`_check_host_ports` before any probe is issued, so no probe recorded by
the port scan targets such an address. -/
theorem claim_C7 (probe : String → Nat → Bool) (ip_list : List String)
    (pr : String × Nat) (h : pr ∈ (scan_ports probe ip_list).2) :
    endsWithStr ".0" pr.1 = false ∧ endsWithStr ".255" pr.1 = false := by
  unfold scan_ports at h
  exact scan_ports_foldl_probes probe ip_list ([], []) (by intro q hq; simp at hq)
    pr h

/-- Witness for C7: a small scan over one skipped and one probed
address. -/
theorem claim_C7_witness :
    endsWithStr ".0" ("192.168.1.5", 7860).1 = false ∧
      endsWithStr ".255" ("192.168.1.5", 7860).1 = false :=
  claim_C7 (fun _ _ => true) ["192.168.1.0", "192.168.1.5"]
    ("192.168.1.5", 7860) (by decide)

/-! ### De-duplication (claim C5) -/

lemma dedup_foldl (l : List Server) (acc : List Server) (seen : List String) :
    l.foldl dedup_step (acc, seen) =
      (acc ++ dedupF l seen, seen ++ (dedupF l seen).map (·.address)) := by
  induction l generalizing acc seen with
  | nil => simp [dedupF]
  | cons s rest ih =>
    by_cases hs : s.address ∈ seen
    · rw [List.foldl_cons]
      rw [show dedup_step (acc, seen) s = (acc, seen) by simp [dedup_step, hs]]
      rw [ih]
      simp [dedupF, hs]
    · rw [List.foldl_cons]
      rw [show dedup_step (acc, seen) s = (acc ++ [s], seen ++ [s.address]) by
        simp [dedup_step, hs]]
      rw [ih]
      simp [dedupF, hs]

lemma dedup_servers_eq (l : List Server) : dedup_servers l = dedupF l [] := by
  unfold dedup_servers
  rw [show (([], []) : List Server × List String) = (([] : List Server), ([] : List String)) from rfl,
    dedup_foldl]
  simp

lemma dedupF_nodup (l : List Server) (seen : List String) :
    ((dedupF l seen).map (·.address)).Nodup ∧
      ∀ a ∈ (dedupF l seen).map (·.address), a ∉ seen := by
  induction l generalizing seen with
  | nil => simp [dedupF]
  | cons s rest ih =>
    by_cases hs : s.address ∈ seen
    · simpa [dedupF, hs] using ih seen
    · obtain ⟨ihn, ihs⟩ := ih (seen ++ [s.address])
      constructor
      · simp only [dedupF, hs, if_false, List.map_cons, List.nodup_cons]
        refine ⟨?_, ihn⟩
        intro hmem
        have := ihs s.address hmem
        simp at this
      · intro a ha
        simp only [dedupF, hs, if_false, List.map_cons, List.mem_cons] at ha
        rcases ha with h1 | h1
        · subst h1; exact hs
        · have := ihs a h1
          simp only [List.mem_append, List.mem_singleton, not_or] at this
          exact this.1

lemma dedupF_find (l : List Server) (seen : List String) (s : Server)
    (h : s ∈ dedupF l seen) :
    s.address ∉ seen ∧ l.find? (fun x => x.address == s.address) = some s := by
  induction l generalizing seen with
  | nil => simp [dedupF] at h
  | cons t rest ih =>
    by_cases ht : t.address ∈ seen
    · rw [show dedupF (t :: rest) seen = dedupF rest seen by simp [dedupF, ht]] at h
      obtain ⟨hns, hfind⟩ := ih seen h
      have hne : (t.address == s.address) = false := by
        by_cases he : t.address = s.address
        · exact absurd (he ▸ ht) hns
        · simp [he]
      exact ⟨hns, by rw [List.find?_cons_of_neg _ (by simp [hne]), hfind]⟩
    · rw [show dedupF (t :: rest) seen = t :: dedupF rest (seen ++ [t.address]) by
        simp [dedupF, ht]] at h
      rcases List.mem_cons.mp h with h1 | h1
      · subst h1
        exact ⟨ht, by rw [List.find?_cons_of_pos _ (by simp)]⟩
      · obtain ⟨hns, hfind⟩ := ih (seen ++ [t.address]) h1
        simp only [List.mem_append, List.mem_singleton, not_or] at hns
        have hne : (t.address == s.address) = false := by
          by_cases he : t.address = s.address
          · exact absurd he.symm hns.2
          · simp [he]
        exact ⟨hns.1, by rw [List.find?_cons_of_neg _ (by simp [hne]), hfind]⟩

/-! ### The scan-phase address list is never empty (claim C5) -/

lemma scan_ip_step_len (segment : String) (l : List Nat) (acc : List String) :
    acc.length ≤ (l.foldl (scan_ip_step segment) acc).length := by
  induction l generalizing acc with
  | nil => simp
  | cons i rest ih =>
    refine le_trans ?_ (ih (scan_ip_step segment acc i))
    unfold scan_ip_step
    split
    · exact le_refl _
    · simp

lemma scan_segment_with_strategy_ne (adapters : List AdapterRec)
    (segment : String) : scan_segment_with_strategy adapters segment ≠ [] := by
  unfold scan_segment_with_strategy
  intro hcontra
  have hlen : 0 < ((List.range' 1 255).foldl (scan_ip_step segment)
      ((adapters.flatMap (·.ipv4)).filter
        (fun ip => startsWithStr segment ip))).length := by
    rw [show (List.range' 1 255) = 1 :: List.range' 2 254 from rfl,
      List.foldl_cons]
    refine lt_of_lt_of_le ?_ (scan_ip_step_len segment (List.range' 2 254) _)
    unfold scan_ip_step
    split
    · rename_i hmem
      exact List.length_pos_of_mem hmem
    · simp
  rw [hcontra] at hlen
  simp at hlen

lemma get_scan_ips_ne (adapters : List AdapterRec) :
    (get_scan_ips adapters).isEmpty = false := by
  unfold get_scan_ips
  split
  · rename_i seg hseg
    have h := scan_segment_with_strategy_ne adapters seg
    cases hs : scan_segment_with_strategy adapters seg with
    | nil => exact absurd hs h
    | cons x xs => simp [hs]
  · simp [get_default_ips]

lemma scan_index_eq (env : ScanEnv) (fast_mode : Bool) :
    (scan_index_tts_servers env fast_mode).1 =
      dedup_servers (discovered_servers env fast_mode) := by
  unfold scan_index_tts_servers discovered_servers
  by_cases hfast : (fast_mode && decide (2 ≤ (seed_results env).length)) = true
  · simp [hfast]
  · simp only [Bool.not_eq_true] at hfast
    have hne : (get_scan_ips env.adapters).isEmpty = false :=
      get_scan_ips_ne env.adapters
    simp [hfast, hne]

/-- Claim C5 (confirmed): the discovery output never contains two
entries with the same address, and each returned entry is the first
verified entry with its address in discovery order (seed results before
scan results).  The early return at source line 115 would skip the
dedup pass, but it is unreachable: the scan address list is never
empty. -/
theorem claim_C5 (env : ScanEnv) (fast_mode : Bool) :
    (((scan_index_tts_servers env fast_mode).1.map (·.address)).Nodup) ∧
      (∀ s ∈ (scan_index_tts_servers env fast_mode).1,
        (discovered_servers env fast_mode).find?
            (fun x => x.address == s.address) = some s) := by
  rw [scan_index_eq, dedup_servers_eq]
  constructor
  · exact (dedupF_nodup (discovered_servers env fast_mode) []).1
  · intro s hs
    exact (dedupF_find (discovered_servers env fast_mode) [] s hs).2

/-- Witness for C5: in the loopback environment the single output entry
is the first verified occurrence of its address among the two duplicate
seed entries. -/
theorem claim_C5_witness :
    (discovered_servers test_env true).find?
        (fun x => x.address == (⟨"127.0.0.1", some 7860, some 9880⟩ : Server).address) =
      some ⟨"127.0.0.1", some 7860, some 9880⟩ :=
  (claim_C5 test_env true).2 ⟨"127.0.0.1", some 7860, some 9880⟩ (by decide)

/-! ### Fast-mode early exit (claims C4 and C10) -/

/-- In the loopback-provider environment the seed list holds the
configured `127.0.0.1` entry plus the always-appended local entry, and
both verify whenever the Gradio check accepts `127.0.0.1`. -/
lemma seed_results_loopback (probe g s : String → Nat → Bool)
    (adapters : List AdapterRec) (hg : g "127.0.0.1" 7860 = true) :
    seed_results ⟨[test_provider127], adapters, probe, g, s⟩ =
      [⟨"127.0.0.1", some 7860, some 9880⟩,
       ⟨"127.0.0.1", some 7860, some 9880⟩] := by
  simp [seed_results, get_known_servers, verify_servers,
    verify_index_tts_server, test_provider127, hg]

/-- Claim C4 (confirmed): with fast mode on, whenever seed verification
already produced at least two verified servers the network scan is
skipped entirely (no scan-phase probes, output is the de-duplicated
seed list); in particular with the configured seed `127.0.0.1` plus the
always-appended `127.0.0.1` and a verifier accepting `127.0.0.1`,
discovery returns exactly one server and performs zero scan-phase
probes. -/
theorem claim_C4 :
    (∀ env : ScanEnv, 2 ≤ (seed_results env).length →
        (scan_index_tts_servers env true).2 = [] ∧
          (scan_index_tts_servers env true).1 =
            dedup_servers (seed_results env)) ∧
      (∀ (probe g s : String → Nat → Bool) (adapters : List AdapterRec),
        g "127.0.0.1" 7860 = true →
          (scan_index_tts_servers ⟨[test_provider127], adapters, probe, g, s⟩
              true).1 = [⟨"127.0.0.1", some 7860, some 9880⟩] ∧
            (scan_index_tts_servers ⟨[test_provider127], adapters, probe, g, s⟩
              true).2 = []) := by
  constructor
  · intro env h
    have hd : decide (2 ≤ (seed_results env).length) = true := decide_eq_true h
    unfold scan_index_tts_servers
    rw [hd]
    simp
  · intro probe g s adapters hg
    have hseed := seed_results_loopback probe g s adapters hg
    constructor
    · unfold scan_index_tts_servers
      rw [hseed]
      rfl
    · unfold scan_index_tts_servers
      rw [hseed]
      rfl

/-- Witness for C4 in the concrete loopback environment. -/
theorem claim_C4_witness :
    2 ≤ (seed_results test_env).length ∧
      (scan_index_tts_servers test_env true).2 = [] ∧
      (scan_index_tts_servers test_env true).1 =
        dedup_servers (seed_results test_env) :=
  ⟨by decide, (claim_C4.1 test_env (by decide)).1, (claim_C4.1 test_env (by decide)).2⟩

/-- Claim C10 (confirmed): the fast-mode threshold counts the verified
seed list before de-duplication, so the configured `127.0.0.1` plus the
unconditionally appended `127.0.0.1` give two verified entries sharing
one address — enough to skip the network scan — while the final
de-duplicated output holds a single entry for that address. -/
theorem claim_C10 (probe g s : String → Nat → Bool)
    (adapters : List AdapterRec) (hg : g "127.0.0.1" 7860 = true) :
    (seed_results ⟨[test_provider127], adapters, probe, g, s⟩).length = 2 ∧
      (dedup_servers
        (seed_results ⟨[test_provider127], adapters, probe, g, s⟩)).length = 1 ∧
      (scan_index_tts_servers ⟨[test_provider127], adapters, probe, g, s⟩
        true).2 = [] ∧
      ((scan_index_tts_servers ⟨[test_provider127], adapters, probe, g, s⟩
        true).1.map (·.address)) = ["127.0.0.1"] := by
  have hseed := seed_results_loopback probe g s adapters hg
  refine ⟨by rw [hseed]; rfl, by rw [hseed]; rfl, ?_, ?_⟩
  · unfold scan_index_tts_servers
    rw [hseed]
    rfl
  · unfold scan_index_tts_servers
    rw [hseed]
    rfl

/-- Witness for C10 with concrete oracles. -/
theorem claim_C10_witness :
    (scan_index_tts_servers
        ⟨[test_provider127], [], fun _ _ => true,
         fun a _ => a == "127.0.0.1", fun _ _ => true⟩ true).2 = [] ∧
      ((scan_index_tts_servers
        ⟨[test_provider127], [], fun _ _ => true,
         fun a _ => a == "127.0.0.1", fun _ _ => true⟩ true).1.map (·.address)) =
        ["127.0.0.1"] :=
  ⟨(claim_C10 (fun _ _ => true) (fun a _ => a == "127.0.0.1") (fun _ _ => true)
      [] (by decide)).2.2.1,
   (claim_C10 (fun _ _ => true) (fun a _ => a == "127.0.0.1") (fun _ _ => true)
      [] (by decide)).2.2.2⟩

/-! ### Adapter inspection (claim C8) -/

/-- Claim C8 (corrected): on the Windows path exactly the candidate
addresses not starting `127.`, not starting `169.254.` and not equal to
`0.0.0.0` are recorded, and adapters with no qualifying address are
dropped; on the Linux/macOS path only addresses starting `192.168.` are
recorded, and an adapter is kept only when its detected type is
Ethernet or WiFi and its recorded list is nonempty. -/
theorem claim_C8_amended :
    (∀ (raw : List RawAdapter) (a : AdapterRec), a ∈ get_windows_adapters raw →
        a.ipv4 ≠ [] ∧ ∀ ip ∈ a.ipv4, windows_ip_ok ip = true) ∧
      (∀ (raw : List RawAdapter) (r : RawAdapter), r ∈ raw →
        r.ipv4_candidates.filter windows_ip_ok ≠ [] →
          ∃ a ∈ get_windows_adapters raw, a.name = r.name ∧
            a.ipv4 = r.ipv4_candidates.filter windows_ip_ok) ∧
      (∀ (raw : List RawAdapter) (a : AdapterRec), a ∈ get_linux_adapters raw →
        a.ipv4 ≠ [] ∧ (a.type = "以太网" ∨ a.type = "WiFi") ∧
          ∀ ip ∈ a.ipv4, linux_ip_ok ip = true) ∧
      (∀ (raw : List RawAdapter) (r : RawAdapter), r ∈ raw →
        (detect_adapter_type r.name = "以太网" ∨
          detect_adapter_type r.name = "WiFi") →
        r.ipv4_candidates.filter linux_ip_ok ≠ [] →
          ∃ a ∈ get_linux_adapters raw, a.name = r.name ∧
            a.ipv4 = r.ipv4_candidates.filter linux_ip_ok) := by
  refine ⟨?_, ?_, ?_, ?_⟩
  · intro raw a ha
    simp only [get_windows_adapters, List.mem_filter, List.mem_map] at ha
    obtain ⟨⟨r, hr, ha'⟩, hne⟩ := ha
    subst ha'
    refine ⟨by simpa using hne, ?_⟩
    intro ip hip
    exact (List.mem_filter.mp hip).2
  · intro raw r hr hne
    refine ⟨⟨r.name, detect_adapter_type r.name,
      r.ipv4_candidates.filter windows_ip_ok⟩, ?_, rfl, rfl⟩
    simp only [get_windows_adapters, List.mem_filter, List.mem_map]
    exact ⟨⟨r, hr, rfl⟩, by simpa using hne⟩
  · intro raw a ha
    simp only [get_linux_adapters, List.mem_filter, List.mem_map] at ha
    obtain ⟨⟨r, hr, ha'⟩, hcond⟩ := ha
    subst ha'
    simp only [Bool.and_eq_true, Bool.or_eq_true, beq_iff_eq] at hcond
    refine ⟨by simpa using hcond.2, hcond.1, ?_⟩
    intro ip hip
    exact (List.mem_filter.mp hip).2
  · intro raw r hr hdet hne
    refine ⟨⟨r.name, detect_adapter_type r.name,
      r.ipv4_candidates.filter linux_ip_ok⟩, ?_, rfl, rfl⟩
    simp only [get_linux_adapters, List.mem_filter, List.mem_map,
      Bool.and_eq_true, Bool.or_eq_true, beq_iff_eq]
    exact ⟨⟨r, hr, rfl⟩, hdet, by simpa using hne⟩

/-- Witness for C8 (corrected): a WiFi adapter with one qualifying
address on the Windows path, and the matching Linux inclusion. -/
theorem claim_C8_amended_witness :
    ((⟨"WLAN", "WiFi", ["192.168.1.7"]⟩ : AdapterRec).ipv4 ≠ [] ∧
      ∀ ip ∈ (⟨"WLAN", "WiFi", ["192.168.1.7"]⟩ : AdapterRec).ipv4,
        windows_ip_ok ip = true) ∧
      (∃ a ∈ get_linux_adapters [⟨"WLAN", ["192.168.1.7"]⟩],
        a.name = "WLAN" ∧
          a.ipv4 = (["192.168.1.7"] : List String).filter linux_ip_ok) :=
  ⟨claim_C8_amended.1 [⟨"WLAN", ["192.168.1.7"]⟩]
      ⟨"WLAN", "WiFi", ["192.168.1.7"]⟩ (by decide),
   claim_C8_amended.2.2.2 [⟨"WLAN", ["192.168.1.7"]⟩] ⟨"WLAN", ["192.168.1.7"]⟩
      (by decide) (by decide) (by decide)⟩

end LegadoTTS
